import Mathlib

/-!
Verification of the fairness-evaluation conclusion notebook
(Conclusion/Conclusion_Fairness_Evaluation_Across_Models.ipynb) of the
Hyperpersonalization-Recsys-SVD-Fairness repository, against its spec.

The notebook hardcodes two per-dataset comparison tables and their display
formatting; the metric computations themselves live outside the repository
snapshot, so the RMSE and Disparate Impact Ratio functions below are
modelled from the spec where noted. Tables are embedded row by row from the
notebook source: MovieLens cells are Option Rat (none is the np.nan
sentinel), Yelp cells are a sum of numbers, strings and a NaN marker,
matching the heterogeneous Python lists.
-/

namespace RecsysFairness

/-- Exact value of a decimal constant of the notebook written with up to
four decimal places: dec4 n is n / 10000, so the notebook literal 0.9738
is dec4 9738, 1.295 is dec4 12950, and so on. -/
def dec4 (n : Int) : Rat := mkRat n 10000

/-! ## MovieLens comparison table (cell-3 of the notebook) -/

/-- One row of the MovieLens table: a metric name and one cell per model,
in the column order of the source DataFrame (ItemKNN, UserKNN, SVD++).
A cell is none exactly where the source writes np.nan. -/
structure MLRow where
  metric : String
  itemknn : Option Rat
  userknn : Option Rat
  svdpp : Option Rat
  deriving DecidableEq

/-- The MovieLens fairness table, embedded value for value from the
pd.DataFrame literal in cell-3 (condensed_transposed). -/
def condensed_transposed : List MLRow := [
  ⟨"RMSE", some (dec4 9738), some (dec4 10126), some (dec4 9287)⟩,
  ⟨"RMSE (Male)", some (dec4 9634), some (dec4 9855), some (dec4 9139)⟩,
  ⟨"RMSE (Female)", some (dec4 10031), some (dec4 10869), some (dec4 9699)⟩,
  ⟨"CFD (Gender)", some (dec4 798), some (dec4 798), some (dec4 799)⟩,
  ⟨"Consistency", some (dec4 2520), some (dec4 2573), some (dec4 2580)⟩,
  ⟨"Stat. Parity (Gender, T=3.5)", some (dec4 154), some (dec4 23), some (dec4 118)⟩,
  ⟨"Rawlsian Exposure (Gender, T=3.5)", some (dec4 6690), some (dec4 5691), some (dec4 5488)⟩,
  ⟨"Local Individual Fairness", some (dec4 9491), none, none⟩,
  ⟨"Calibration Error", some (dec4 7588), none, none⟩,
  ⟨"Disparate Impact Ratio", some (dec4 9775), none, none⟩,
  ⟨"Demographic Parity", some (dec4 154), none, none⟩]

/-! ## Display formatting (cell-3: copy().applymap of the format lambda) -/

/-- Zero-pad the decimal digits of n on the left to (at least) width 4,
as the fixed-point formatter needs for the fractional part. -/
def pad4 (n : Nat) : String :=
  String.mk (List.replicate (4 - (Nat.toDigits 10 n).length) '0' ++ Nat.toDigits 10 n)

/-- Render scaled (a rating value times 10000, already rounded to an
integer) as a fixed-point decimal with four digits after the point. -/
def format4core (scaled : Int) : String :=
  (if scaled < 0 then "-" else "")
    ++ toString (scaled.natAbs / 10000) ++ "." ++ pad4 (scaled.natAbs % 10000)

/-- Embeds the Python format spec .4f on an exact rational: round x to four
decimal places (the scaled integer is the floor of x * 10000 + 1 / 2,
computed on the numerator and denominator directly) and render it in
fixed-point with exactly four digits after the point. -/
def format4 (x : Rat) : String :=
  format4core ((2 * x.num * 10000 + (x.den : Int)).fdiv (2 * (x.den : Int)))

/-- The display lambda of cell-3: a NaN cell is shown as the dash string,
every numeric cell as its 4-decimal rendering. -/
def fmtCell (cell : Option Rat) : String :=
  match cell with
  | none => "-"
  | some x => format4 x

/-- pandas DataFrame.copy: a fresh table holding the same cells. -/
def copyTable (t : List MLRow) : List MLRow :=
  t.map (fun r => ⟨r.metric, r.itemknn, r.userknn, r.svdpp⟩)

/-- One row of the formatted MovieLens display table: every cell a string. -/
structure FRow where
  metric : String
  itemknn : String
  userknn : String
  svdpp : String
  deriving DecidableEq

/-- pandas applymap of the display lambda: the same rows with every cell
passed through fmtCell. -/
def applymapFmt (t : List MLRow) : List FRow :=
  t.map (fun r => ⟨r.metric, fmtCell r.itemknn, fmtCell r.userknn, fmtCell r.svdpp⟩)

/-- formatted_table of cell-3: applymap of the display lambda over a copy
of condensed_transposed. -/
def formatted_table : List FRow :=
  applymapFmt (copyTable condensed_transposed)

/-! ## Yelp comparison table (cell-3 of the notebook) -/

/-- A cell of the Yelp table as the Python lists hold it: a number, a
string (the source writes the dash string for missing metrics), or the
np.nan marker (which the source replace call would turn into a dash). -/
inductive YCell where
  | num (q : Rat)
  | str (s : String)
  | nan
  deriving DecidableEq

/-- The metric names of the Yelp table (the metrics list of cell-3). -/
def metrics : List String := [
  "RMSE", "RMSE (Female)", "RMSE (Male)", "RMSE (Unknown)",
  "Calibration Error", "Local Individual Fairness",
  "Disparate Impact Ratio", "Demographic Parity",
  "Counterfactual Difference", "Consistency Score",
  "Statistical Parity", "Rawlsian Min Exposure"]

/-- The SVD++ score list of cell-3. -/
def svdpp : List YCell := [
  .num (dec4 10175), .num (dec4 10122), .num (dec4 9846), .num (dec4 10574),
  .num (dec4 7381), .num (dec4 2267), .num (dec4 10078), .num (dec4 76),
  .str "-", .str "-", .str "-", .str "-"]

/-- The ItemKNN score list of cell-3. -/
def itemknn : List YCell := [
  .num (dec4 12950), .num (dec4 12768), .num (dec4 13171), .num (dec4 13574),
  .num (dec4 8946), .num (dec4 2615), .num (dec4 10194), .num (dec4 174),
  .str "-", .str "-", .str "-", .str "-"]

/-- The UserKNN score list of cell-3. -/
def userknn : List YCell := [
  .num (dec4 13022), .num (dec4 12729), .num (dec4 12726), .num (dec4 12959),
  .num (dec4 5593), .str "-", .num (dec4 10792), .num (dec4 549),
  .num (dec4 756), .num (dec4 2970), .num (dec4 678), .num (dec4 7407)]

/-- One row of the Yelp table, in the column order of the source DataFrame
(Metric, SVD++, ItemKNN, UserKNN). -/
structure YRow where
  metric : String
  svdpp : YCell
  itemknn : YCell
  userknn : YCell
  deriving DecidableEq

/-- Zip the metric-name list with the three per-model score lists into
rows, as the pd.DataFrame constructor of cell-3 does. -/
def buildRows : List String → List YCell → List YCell → List YCell → List YRow
  | m :: ms, a :: ys, b :: bs, c :: cs => ⟨m, a, b, c⟩ :: buildRows ms ys bs cs
  | _, _, _, _ => []

/-- The Yelp table as first constructed in cell-3, before the replace
call. -/
def fairness_yelp_built : List YRow :=
  buildRows metrics svdpp itemknn userknn

/-- The replace(np.nan, dash) call of cell-3 acting on one cell. -/
def replaceNanDash : YCell → YCell
  | .nan => .str "-"
  | c => c

/-- fairness_yelp after the replace call, the table the notebook displays. -/
def fairness_yelp : List YRow :=
  fairness_yelp_built.map (fun r =>
    ⟨r.metric, replaceNanDash r.svdpp, replaceNanDash r.itemknn, replaceNanDash r.userknn⟩)

/-! ## The report and its sampling note (cell-0 markdown) -/

/-- A sampled metric evaluation as the report records it: the dataset and
the recorded sample size (none would mean sampling applied silently). -/
structure SampledEvaluation where
  dataset : String
  sampleSize : Option Nat
  deriving DecidableEq

/-- The conclusion report: both display tables plus the sampling notes of
the cell-0 markdown. -/
structure FairnessReport where
  movielensTable : List FRow
  yelpTable : List YRow
  sampledEvaluations : List SampledEvaluation

/-- Embedded from cell-0 of the notebook: the Yelp fairness metrics were
computed on a subset of 50 users due to computational constraints, and the
report states that sample size (both in the dataset-differences list and
in the limitations paragraph). MovieLens metrics use the full population,
so Yelp is the only sampled evaluation. -/
def conclusionReport : FairnessReport :=
  ⟨formatted_table, fairness_yelp, [⟨"Yelp", some 50⟩]⟩

/-! ## Metrics engine functions (not in the repository snapshot) -/

/-- The error cases of the metrics engine named by the spec. -/
inductive MetricError where
  | EmptyInputError
  | InvalidNeighborhoodSize
  deriving DecidableEq

/-- An Interaction Record of the data model: user, item, true rating and
predicted rating. -/
structure InteractionRecord where
  user_id : Nat
  item_id : Nat
  true_rating : Rat
  predicted_rating : Rat
  deriving DecidableEq

/-- Squared error of one record. -/
def sqErr (r : InteractionRecord) : Rat :=
  (r.true_rating - r.predicted_rating) ^ 2

/-- Running sum of squared errors over the record set. -/
def sumSqErr (records : List InteractionRecord) : Rat :=
  records.foldl (fun acc r => acc + sqErr r) 0

/-- Modelled from the spec: RMSE(records) is the square root of the mean
squared error over the full set, and an empty record set fails with
EmptyInputError rather than defaulting to 0. The repository snapshot holds
only the final comparison tables, not the metric computation itself. -/
noncomputable def RMSE (records : List InteractionRecord) : Except MetricError Real :=
  if records.isEmpty then Except.error MetricError.EmptyInputError
  else Except.ok (Real.sqrt ((sumSqErr records / (records.length : Rat) : Rat) : Real))

/-- The end-to-end scenario records of the spec: user u1 rated i1 with
true 4.0 and predicted 3.8, user u2 rated i1 with true 2.0 and
predicted 2.5. -/
def scenarioRecords : List InteractionRecord :=
  [⟨1, 1, 4, dec4 38000⟩, ⟨2, 1, 2, dec4 25000⟩]

/-- Smallest element of a list of rates (0 for an empty list). -/
def listMin : List Rat → Rat
  | [] => 0
  | x :: xs => xs.foldl min x

/-- Largest element of a list of rates (0 for an empty list). -/
def listMax : List Rat → Rat
  | [] => 0
  | x :: xs => xs.foldl max x

/-- Modelled from the spec: the Disparate Impact Ratio of the per-group
positive rates is the smallest rate divided by the largest, and a zero (or
missing) denominator-role rate resolves to the not-applicable sentinel
rather than an arithmetic error. The repository snapshot holds only the
final comparison tables, not the metric computation itself. -/
def disparateImpactValue (rates : List Rat) : Option Rat :=
  if listMax rates ≤ 0 then none
  else some (listMin rates / listMax rates)

/-- Is a MovieLens cell at most one (a missing cell passes vacuously)? -/
def cellLE1 : Option Rat → Bool
  | none => true
  | some q => decide (q ≤ 1)

/-! ## Helper lemmas -/

/-- dec4 n is the rational n / 10000. -/
theorem dec4_eq_div (n : Int) : dec4 n = (n : Rat) / 10000 := by
  simp [dec4, Rat.mkRat_eq_div]

theorem strMk_length (l : List Char) : (String.mk l).length = l.length := rfl

theorem pad4_length (n : Nat) : 4 ≤ (pad4 n).length := by
  unfold pad4
  rw [strMk_length, List.length_append, List.length_replicate]
  omega

theorem format4core_length (n : Int) : 5 ≤ (format4core n).length := by
  unfold format4core
  rw [String.length_append, String.length_append, String.length_append]
  have hp := pad4_length (n.natAbs % 10000)
  have hd : ("." : String).length = 1 := rfl
  omega

theorem format4_length (x : Rat) : 5 ≤ (format4 x).length :=
  format4core_length _

theorem foldl_min_le_init (xs : List Rat) (x : Rat) : xs.foldl min x ≤ x := by
  induction xs generalizing x with
  | nil => simp
  | cons y ys ih =>
      calc ys.foldl min (min x y) ≤ min x y := ih (min x y)
        _ ≤ x := min_le_left x y

theorem init_le_foldl_max (xs : List Rat) (x : Rat) : x ≤ xs.foldl max x := by
  induction xs generalizing x with
  | nil => simp
  | cons y ys ih =>
      calc x ≤ max x y := le_max_left x y
        _ ≤ ys.foldl max (max x y) := ih (max x y)

theorem foldl_min_nonneg (xs : List Rat) (x : Rat) (hx : 0 ≤ x)
    (hxs : ∀ r ∈ xs, 0 ≤ r) : 0 ≤ xs.foldl min x := by
  induction xs generalizing x with
  | nil => simpa using hx
  | cons y ys ih =>
      have hy : 0 ≤ y := hxs y (by simp)
      have hmin : 0 ≤ min x y := le_min hx hy
      simpa using ih (min x y) hmin (fun r hr => hxs r (by simp [hr]))

theorem foldl_add_sq (l : List InteractionRecord) (a : Rat) :
    l.foldl (fun acc r => acc + sqErr r) a = a + (l.map sqErr).sum := by
  induction l generalizing a with
  | nil => simp
  | cons r rs ih =>
      simp only [List.foldl_cons, List.map_cons, List.sum_cons, ih]
      ring

theorem sumSqErr_eq_sum (l : List InteractionRecord) :
    sumSqErr l = (l.map sqErr).sum := by
  unfold sumSqErr
  rw [foldl_add_sq]
  simp

/-! ## The claims -/

/-- Claim C1: in the assembled MovieLens comparison table every cell whose
Metric Result is the np.nan sentinel is rendered as the dash display value,
is never rendered as the number zero, and neither the cell nor its row is
dropped: the formatted table keeps every row, keeps every metric name, and
shows the dash (not a zero rendering) wherever the numeric table holds the
sentinel. -/
theorem claim_C1 :
    formatted_table.length = condensed_transposed.length ∧
    ((condensed_transposed.zip formatted_table).all (fun p =>
        (p.1.metric == p.2.metric)
        && (p.1.itemknn.isSome || ((p.2.itemknn == "-") && (p.2.itemknn != format4 0)))
        && (p.1.userknn.isSome || ((p.2.userknn == "-") && (p.2.userknn != format4 0)))
        && (p.1.svdpp.isSome || ((p.2.svdpp == "-") && (p.2.svdpp != format4 0)))) = true) ∧
    (condensed_transposed.zip formatted_table).length = condensed_transposed.length := by
  refine ⟨by decide, by decide, by decide⟩

/-- Claim C2 counterexample: the Yelp comparison table reports Disparate
Impact Ratio values strictly greater than 1 for all three models (1.0078,
1.0194, 1.0792), so not every Disparate Impact Ratio value appearing in
the comparison tables is at most 1. -/
theorem claim_C2_counterexample :
    fairness_yelp.find? (fun r => r.metric == "Disparate Impact Ratio")
      = some ⟨"Disparate Impact Ratio", YCell.num (dec4 10078), YCell.num (dec4 10194),
          YCell.num (dec4 10792)⟩ ∧
    1 < dec4 10078 ∧ 1 < dec4 10194 ∧ 1 < dec4 10792 := by
  decide

/-- Claim C2 amended: the Disparate Impact Ratio as the spec defines it
(smallest group positive rate over largest) lies in the closed interval
from 0 to 1 whenever the rates are nonnegative and the ratio is defined,
and every Disparate Impact Ratio value of the MovieLens table is at most
1; the Yelp table values exceed 1 (see the counterexample), so they were
not produced by the min-over-max definition. -/
theorem claim_C2_amended :
    (∀ (rates : List Rat) (q : Rat),
        rates.all (fun r => decide (0 ≤ r)) = true →
        disparateImpactValue rates = some q →
        0 ≤ q ∧ q ≤ 1) ∧
    ((condensed_transposed.filter (fun r => r.metric == "Disparate Impact Ratio")).all
        (fun r => cellLE1 r.itemknn && cellLE1 r.userknn && cellLE1 r.svdpp) = true) := by
  constructor
  · intro rates q hall hq
    unfold disparateImpactValue at hq
    split at hq
    · exact Option.noConfusion hq
    · next hmax =>
        have hmaxpos : 0 < listMax rates := lt_of_not_le hmax
        injection hq with hq'
        cases rates with
        | nil => simp [listMax] at hmaxpos
        | cons x xs =>
            have hnn : ∀ r ∈ x :: xs, 0 ≤ r := by
              intro r hr
              exact of_decide_eq_true (List.all_eq_true.mp hall r hr)
            have hx0 : 0 ≤ x := hnn x (by simp)
            have hminnn : 0 ≤ listMin (x :: xs) :=
              foldl_min_nonneg xs x hx0 (fun r hr => hnn r (by simp [hr]))
            have hminmax : listMin (x :: xs) ≤ listMax (x :: xs) :=
              le_trans (foldl_min_le_init xs x) (init_le_foldl_max xs x)
            subst hq'
            exact ⟨div_nonneg hminnn (le_of_lt hmaxpos),
                   (div_le_one hmaxpos).mpr hminmax⟩
  · decide

/-- Claim C2 amended, witness: at the concrete nonnegative rate list with
values 1 and 2 the ratio is one half, which indeed lies between 0 and 1. -/
theorem claim_C2_amended_witness :
    ([(1 : Rat), 2].all (fun r => decide (0 ≤ r)) = true) ∧
    (0 ≤ (1 : Rat) / 2 ∧ (1 : Rat) / 2 ≤ 1) := by
  have hall : ([(1 : Rat), 2].all (fun r => decide (0 ≤ r)) = true) := by decide
  have h12 : (1 : Rat) ≤ 2 := by norm_num
  have hdir : disparateImpactValue [(1 : Rat), 2] = some ((1 : Rat) / 2) := by
    unfold disparateImpactValue listMin listMax
    simp only [List.foldl_cons, List.foldl_nil, max_eq_right h12, min_eq_left h12]
    rw [if_neg (by norm_num)]
  exact ⟨hall, claim_C2_amended.1 [(1 : Rat), 2] ((1 : Rat) / 2) hall hdir⟩

/-- Claim C3 counterexample: the code assembles two separate per-dataset
tables, not one: each table has exactly one RMSE row, the MovieLens table
reports 0.9287 for SVD++ while the Yelp table reports the different value
1.0175, the Yelp value appears in no cell of the MovieLens table and the
MovieLens value in no cell of the Yelp table, so neither table holds the
Metric Results of all (model, dataset) pairs. -/
theorem claim_C3_counterexample :
    ((condensed_transposed.filter (fun r => r.metric == "RMSE")).length = 1) ∧
    ((condensed_transposed.filter (fun r => r.metric == "RMSE")).all
        (fun r => r.svdpp == some (dec4 9287)) = true) ∧
    ((fairness_yelp.filter (fun r => r.metric == "RMSE")).length = 1) ∧
    ((fairness_yelp.filter (fun r => r.metric == "RMSE")).all
        (fun r => r.svdpp == YCell.num (dec4 10175)) = true) ∧
    (condensed_transposed.all (fun r =>
        (r.itemknn != some (dec4 10175)) && (r.userknn != some (dec4 10175))
          && (r.svdpp != some (dec4 10175))) = true) ∧
    (fairness_yelp.all (fun r =>
        (r.svdpp != YCell.num (dec4 9287)) && (r.itemknn != YCell.num (dec4 9287))
          && (r.userknn != YCell.num (dec4 9287))) = true) ∧
    dec4 9287 < dec4 10175 := by
  decide

/-- Claim C3 amended: the Reporting Aggregator assembles the Metric Results
into two per-dataset comparison tables, one for MovieLens (11 metrics) and
one for Yelp (12 metrics), each keyed by metric name with a column per
model, and the formatted MovieLens display keeps exactly the same metric
rows. -/
theorem claim_C3_amended :
    condensed_transposed.map (fun r => r.metric)
      = ["RMSE", "RMSE (Male)", "RMSE (Female)", "CFD (Gender)", "Consistency",
         "Stat. Parity (Gender, T=3.5)", "Rawlsian Exposure (Gender, T=3.5)",
         "Local Individual Fairness", "Calibration Error", "Disparate Impact Ratio",
         "Demographic Parity"] ∧
    fairness_yelp.map (fun r => r.metric) = metrics ∧
    metrics.length = 12 ∧
    formatted_table.map (fun r => r.metric) = condensed_transposed.map (fun r => r.metric) := by
  decide

/-- Claim C4: partial metric coverage is kept, not dropped: the four
MovieLens metrics missing for UserKNN are exactly the four that are also
missing for SVD++ while numeric for ItemKNN, their rows stay in both the
numeric and the formatted table (11 rows each); on Yelp the partially
covered rows (for example Consistency Score, numeric only for UserKNN, and
Local Individual Fairness, numeric only for SVD++ and ItemKNN) are present
with the dash for the uncovered models, every cell of the Yelp table being
either a number or the dash. -/
theorem claim_C4 :
    ((condensed_transposed.filter (fun r => r.userknn == none)).map (fun r => r.metric)
       = ["Local Individual Fairness", "Calibration Error", "Disparate Impact Ratio",
          "Demographic Parity"]) ∧
    ((condensed_transposed.filter (fun r => r.userknn == none)).all
       (fun r => r.itemknn.isSome && (r.svdpp == none)) = true) ∧
    ((formatted_table.filter (fun r => r.userknn == "-")).map (fun r => r.metric)
       = ["Local Individual Fairness", "Calibration Error", "Disparate Impact Ratio",
          "Demographic Parity"]) ∧
    condensed_transposed.length = 11 ∧ formatted_table.length = 11 ∧
    ((fairness_yelp.filter (fun r => r.metric == "Consistency Score"))
       = [⟨"Consistency Score", YCell.str "-", YCell.str "-", YCell.num (dec4 2970)⟩]) ∧
    ((fairness_yelp.filter (fun r => r.metric == "Local Individual Fairness"))
       = [⟨"Local Individual Fairness", YCell.num (dec4 2267), YCell.num (dec4 2615),
           YCell.str "-"⟩]) ∧
    fairness_yelp.length = 12 ∧
    (fairness_yelp.all (fun r =>
        (match r.svdpp with | YCell.num _ => true | YCell.str s => s == "-" | YCell.nan => false)
        && (match r.itemknn with | YCell.num _ => true | YCell.str s => s == "-" | YCell.nan => false)
        && (match r.userknn with | YCell.num _ => true | YCell.str s => s == "-" | YCell.nan => false))
      = true) := by
  decide

/-- Claim C5: Demographic Parity and Statistical Parity are reported as two
distinct named metrics in both tables: each name occurs exactly once per
table, the names differ, and on MovieLens both rows are present even though
their ItemKNN values coincide at 0.0154. -/
theorem claim_C5 :
    ((condensed_transposed.filter (fun r => r.metric == "Stat. Parity (Gender, T=3.5)")).length
       = 1) ∧
    ((condensed_transposed.filter (fun r => r.metric == "Demographic Parity")).length = 1) ∧
    (("Stat. Parity (Gender, T=3.5)" == "Demographic Parity") = false) ∧
    ((fairness_yelp.filter (fun r => r.metric == "Statistical Parity")).length = 1) ∧
    ((fairness_yelp.filter (fun r => r.metric == "Demographic Parity")).length = 1) ∧
    (("Statistical Parity" == "Demographic Parity") = false) ∧
    ((condensed_transposed.find? (fun r => r.metric == "Stat. Parity (Gender, T=3.5)")).map
        (fun r => r.itemknn) = some (some (dec4 154))) ∧
    ((condensed_transposed.find? (fun r => r.metric == "Demographic Parity")).map
        (fun r => r.itemknn) = some (some (dec4 154))) := by
  decide

/-- Claim C6: RMSE of an empty Interaction Record set fails with
EmptyInputError (it does not return a value, 0 in particular), and for
every non-empty record set RMSE is the square root of the mean of the
squared differences between true and predicted ratings over the full
set. -/
theorem claim_C6 :
    RMSE [] = Except.error MetricError.EmptyInputError ∧
    (∀ l : List InteractionRecord, l.isEmpty = false →
        RMSE l = Except.ok (Real.sqrt (((l.map sqErr).sum / (l.length : Rat) : Rat) : Real))) := by
  constructor
  · rfl
  · intro l hl
    unfold RMSE
    rw [hl]
    simp [sumSqErr_eq_sum]

/-- Claim C6 witness: the spec's end-to-end scenario records are nonempty,
RMSE on them is the square root of the mean squared error, and that mean
squared error is 29/200 = 0.145 (so RMSE is about 0.3536, as the spec
says). -/
theorem claim_C6_witness :
    (scenarioRecords.isEmpty = false) ∧
    RMSE scenarioRecords
      = Except.ok (Real.sqrt
          (((scenarioRecords.map sqErr).sum / (scenarioRecords.length : Rat) : Rat) : Real)) ∧
    ((scenarioRecords.map sqErr).sum / (scenarioRecords.length : Rat) = mkRat 29 200) := by
  refine ⟨rfl, claim_C6.2 scenarioRecords rfl, ?_⟩
  simp [scenarioRecords, sqErr, dec4, Rat.mkRat_eq_div]
  norm_num

/-- Claim C7: the one sampled metric evaluation of the report (the Yelp
fairness metrics, computed on 50 users) has its sample size recorded in
the report; no sampled evaluation is recorded without a sample size. -/
theorem claim_C7 :
    (conclusionReport.sampledEvaluations.all (fun e => e.sampleSize.isSome) = true) ∧
    conclusionReport.sampledEvaluations = [⟨"Yelp", some 50⟩] ∧
    conclusionReport.yelpTable = fairness_yelp ∧
    conclusionReport.movielensTable = formatted_table := by
  exact ⟨by decide, rfl, rfl, rfl⟩

/-- Claim C8: the display map renders a cell as the dash exactly when the
cell is the NaN sentinel — a numeric cell always formats to a string of at
least five characters (digits, a point and four decimals), never the
one-character dash — and over the MovieLens table the dash cells of the
formatted table correspond exactly to the none cells of the numeric
table. -/
theorem claim_C8 :
    (∀ c : Option Rat, fmtCell c = "-" ↔ c = none) ∧
    ((condensed_transposed.zip formatted_table).all (fun p =>
        ((p.2.itemknn == "-") == p.1.itemknn.isNone)
        && ((p.2.userknn == "-") == p.1.userknn.isNone)
        && ((p.2.svdpp == "-") == p.1.svdpp.isNone)) = true) := by
  constructor
  · intro c
    cases c with
    | none => simp [fmtCell]
    | some x =>
        simp only [fmtCell]
        constructor
        · intro h
          exfalso
          have hlen := congrArg String.length h
          have h5 := format4_length x
          have h1 : ("-" : String).length = 1 := rfl
          omega
        · intro h
          exact absurd h (by simp)
  · decide

/-- Claim C9: formatting is effect-free on the numeric table: copying a
table returns an equal table, formatted_table is exactly the applymap
image of condensed_transposed, and after building formatted_table every
column of condensed_transposed still holds its originally constructed
values and sentinels. -/
theorem claim_C9 :
    (∀ t : List MLRow, copyTable t = t) ∧
    formatted_table = applymapFmt condensed_transposed ∧
    condensed_transposed.map (fun r => r.itemknn)
      = [some (dec4 9738), some (dec4 9634), some (dec4 10031), some (dec4 798),
         some (dec4 2520), some (dec4 154), some (dec4 6690), some (dec4 9491),
         some (dec4 7588), some (dec4 9775), some (dec4 154)] ∧
    condensed_transposed.map (fun r => r.userknn)
      = [some (dec4 10126), some (dec4 9855), some (dec4 10869), some (dec4 798),
         some (dec4 2573), some (dec4 23), some (dec4 5691), none, none, none, none] ∧
    condensed_transposed.map (fun r => r.svdpp)
      = [some (dec4 9287), some (dec4 9139), some (dec4 9699), some (dec4 799),
         some (dec4 2580), some (dec4 118), some (dec4 5488), none, none, none, none] := by
  refine ⟨fun t => ?_, by decide, by decide, by decide, by decide⟩
  induction t with
  | nil => rfl
  | cons r rs ih =>
      show r :: copyTable rs = r :: rs
      rw [ih]

/-- Claim C10: the replace(np.nan, dash) call is an identity on the Yelp
table: the table after replace equals the table as built, no cell of the
built table is the NaN marker, and every non-numeric cell is already the
dash string. -/
theorem claim_C10 :
    fairness_yelp = fairness_yelp_built ∧
    (fairness_yelp_built.all (fun r =>
        (r.svdpp != YCell.nan) && (r.itemknn != YCell.nan) && (r.userknn != YCell.nan)) = true) ∧
    (fairness_yelp_built.all (fun r =>
        (match r.svdpp with | YCell.num _ => true | YCell.str s => s == "-" | YCell.nan => false)
        && (match r.itemknn with | YCell.num _ => true | YCell.str s => s == "-" | YCell.nan => false)
        && (match r.userknn with | YCell.num _ => true | YCell.str s => s == "-" | YCell.nan => false))
      = true) := by
  decide

end RecsysFairness
